import Mathlib

/-!
Verification of the Youtoob client authentication API wrapper and server
entry wiring, as a shallow embedding in Lean 4.

The client auth core (`client/utils/api.js`: `login` / `register`) is not
present in the repository snapshot (only its test suite
`src/__tests__/utils/api.test.js` exercises it), so its definitions below
are modelled from the specification.  The server entry point
(`src/server/index.js`) is present and embedded from source.
-/

namespace Youtoob

/-- User record, as in the test fixture `testUser = {_id, username, token}`
and the spec data model: `_id`, `username`, `token`, all strings. -/
structure UserRecord where
  uid : String
  username : String
  token : String
  deriving Repr, DecidableEq

/-- Credentials submitted to authenticate.  The spec performs no local
structural validation, so an opaque value suffices; we use the same shape
as the test (`api.login(testUser)` posts the fixture itself). -/
structure Credentials where
  username : String
  secret : String
  deriving Repr, DecidableEq

/-- JSON serialization of a user record, matching
`JSON.stringify({_id, username, token})` as asserted by the test:
the string of the form with the three fields in order. -/
def serialize (u : UserRecord) : String :=
  "\x7b\"_id\":\"" ++ u.uid ++ "\",\"username\":\"" ++ u.username ++
    "\",\"token\":\"" ++ u.token ++ "\"\x7d"

/-! ## Client-side storage

The spec's storage interface: a key-value store with
`get(key) -> string | absent`, `set(key, string)`, `remove(key)`,
`clear()`.  We embed it as an association list where `set` fully
replaces the entry for the key. -/

/-- Client-side key-value storage (browser localStorage). -/
abbrev Storage : Type := List (String × String)

namespace Storage

/-- Embeds `localStorage.getItem(key)`: the stored string, or absent. -/
def get (st : Storage) (key : String) : Option String :=
  (st.find? (fun p => p.1 = key)).map Prod.snd

/-- Embeds `localStorage.setItem(key, value)`: a single full write of one key. -/
def set (st : Storage) (key value : String) : Storage :=
  (key, value) :: st.filter (fun p => p.1 ≠ key)

/-- Embeds `localStorage.removeItem(key)`. -/
def remove (st : Storage) (key : String) : Storage :=
  st.filter (fun p => p.1 ≠ key)

/-- Embeds `localStorage.clear()`. -/
def clear (_st : Storage) : Storage := []

/-- The empty storage (no key present). -/
def empty : Storage := []

end Storage

/-! ## The client auth API core

`client/utils/api.js` is not in the repository snapshot; the definitions
below are modelled from the spec (§4.1, §6, §7) and the behaviour the
test suite `src/__tests__/utils/api.test.js` asserts. -/

/-- HTTP request issued by the core: a method, a url (origin ++ fixed
path) and the credentials as the JSON request body. -/
structure Request where
  method : String
  url : String
  body : Credentials
  deriving Repr, DecidableEq

/-- HTTP response from the auth endpoint: a status code and the response
body parsed as a user record when one is present (the spec allows an
arbitrary or absent body on failure, which the core never reads). -/
structure Response where
  status : Nat
  body : Option UserRecord
  deriving Repr, DecidableEq

/-- The auth endpoint as seen through the transport layer: one request
in, either a transport failure (network unreachable, DNS, ...) or a
response out. -/
abbrev Endpoint := Request → Except String Response

/-- Failure values observable by the caller of `login` / `register`. -/
inductive ApiError where
  | transport (msg : String)
  | status (code : Nat)
  | badBody
  deriving Repr, DecidableEq

/-- A 2xx (success) HTTP status. -/
def is2xx (s : Nat) : Bool := 200 ≤ s && s < 300

instance {ε α : Type} [DecidableEq ε] [DecidableEq α] :
    DecidableEq (Except ε α) := fun a b =>
  match a, b with
  | .error e, .error f =>
    if h : e = f then .isTrue (by rw [h])
    else .isFalse (fun hc => by cases hc; exact h rfl)
  | .error _, .ok _ => .isFalse (fun hc => by cases hc)
  | .ok _, .error _ => .isFalse (fun hc => by cases hc)
  | .ok x, .ok y =>
    if h : x = y then .isTrue (by rw [h])
    else .isFalse (fun hc => by cases hc; exact h rfl)

/-- Everything observable about one api call: the single completion
delivered to the caller, the storage after the call, and the list of
network requests the call issued. -/
structure ApiOutcome where
  result : Except ApiError UserRecord
  storage : Storage
  requests : List Request
  deriving Repr, DecidableEq

/-- Modelled from the spec: the fixed, configured server origin of the
missing `client/utils/api.js` (the test mocks `http://localhost:3000`). -/
def origin : String := "http://localhost:3000"

/-- Modelled from the spec: the shared body of `login` and `register`
from the missing `client/utils/api.js`.  Issues exactly one POST of the
credentials to `origin ++ path`; on a 2xx response it parses the body
as the user record `U`, stores `serialize U` under the fixed storage
key `"user"` and resolves with `U`; on a transport failure or a non-2xx
response it rejects without touching storage (§4.1, §7). -/
def authRequest (path : String) (endpoint : Endpoint) (creds : Credentials)
    (st : Storage) : ApiOutcome :=
  let req : Request := ⟨"POST", origin ++ path, creds⟩
  match endpoint req with
  | .error e => ⟨.error (.transport e), st, [req]⟩
  | .ok resp =>
    if is2xx resp.status then
      match resp.body with
      | some u => ⟨.ok u, st.set "user" (serialize u), [req]⟩
      | none => ⟨.error .badBody, st, [req]⟩
    else
      ⟨.error (.status resp.status), st, [req]⟩

/-- Modelled from the spec: `login(credentials)` posts the credentials
to `/api/login` and follows the shared auth contract. -/
def login (creds : Credentials) (endpoint : Endpoint) (st : Storage) :
    ApiOutcome :=
  authRequest "/api/login" endpoint creds st

/-- Modelled from the spec: `register(credentials)` posts the
credentials to `/api/register` and follows the shared auth contract. -/
def register (creds : Credentials) (endpoint : Endpoint) (st : Storage) :
    ApiOutcome :=
  authRequest "/api/register" endpoint creds st

/-! ## The server entry point

Embedded from `src/server/index.js`: the express app mounts, in order,
`morgan` (logging only, always falls through), `GET /health`,
`bodyParser.json()`, `express.static('public')`,
`app.use('/api', userRoutes, videoRoutes)`, and the catch-all
`app.get('*', (req, res) => res.send(renderApp()))`.  The route
handlers, the static file server, the JSON parser and `renderApp` are
external collaborators and appear as parameters. -/

namespace Server

/-- An incoming HTTP request: method, path, the raw body, and the
parsed JSON body once `bodyParser.json()` has run (absent before). -/
structure SReq where
  method : String
  path : String
  rawBody : String
  parsedBody : Option String
  deriving Repr, DecidableEq

/-- A response produced by the server. -/
inductive SResp where
  | empty
  | html (content : String)
  | routed (payload : String)
  deriving Repr, DecidableEq

/-- The effect of `bodyParser.json()` on a request: attach the parsed
JSON body. -/
def withParsed (jsonParse : String → Option String) (r : SReq) : SReq :=
  { r with parsedBody := jsonParse r.rawBody }

/-- Whether a path falls under the `/api` mount of
`app.use('/api', userRoutes, videoRoutes)`. -/
def underApi (p : String) : Bool :=
  "/api".toList.isPrefixOf p.toList

/-- The `src/server/index.js` middleware pipeline: health check first, then
JSON body parsing, then static assets, then the `/api` mount trying
`userRoutes` then `videoRoutes`, then the catch-all GET handler sending
`renderApp()`.  `none` means no handler responded (framework 404). -/
def dispatch (jsonParse : String → Option String)
    (staticH userRoutes videoRoutes : SReq → Option SResp)
    (renderApp : Unit → String) (r : SReq) : Option SResp :=
  if r.method = "GET" ∧ r.path = "/health" then
    some .empty
  else
    let r' := withParsed jsonParse r
    match staticH r' with
    | some resp => some resp
    | none =>
      let apiResp : Option SResp :=
        if underApi r'.path then
          match userRoutes r' with
          | some resp => some resp
          | none => videoRoutes r'
        else none
      match apiResp with
      | some resp => some resp
      | none =>
        if r.method = "GET" then some (.html (renderApp ())) else none

/-- What `module.exports` of `src/server/index.js` can be: the express
app itself (no port bound) or the listener returned by
`app.listen(PORT)`. -/
inductive ServerExport where
  | app
  | listener (port : Nat)
  deriving Repr, DecidableEq

/-- The `module.exports` of `src/server/index.js`: the app when
`isTesting`, otherwise the result of `app.listen(PORT)`. -/
def moduleExports (isTesting : Bool) (PORT : Nat) : ServerExport :=
  if isTesting then .app else .listener PORT

/-- The network ports bound by the exported value. -/
def ServerExport.portsBound : ServerExport → List Nat
  | .app => []
  | .listener p => [p]

end Server

/-! ## Storage lemmas -/

theorem Storage.get_set_self (st : Storage) (k v : String) :
    (st.set k v).get k = some v := by
  simp [Storage.get, Storage.set, List.find?]

theorem Storage.find_filter_out (st : Storage) (k k' : String) (h : k' ≠ k) :
    (st.filter (fun p => p.1 ≠ k)).find? (fun p => p.1 = k') =
      st.find? (fun p => p.1 = k') := by
  induction st with
  | nil => rfl
  | cons a t ih =>
    by_cases hak : a.1 = k
    · have hf : (decide (a.1 ≠ k)) = false := by simp [hak]
      have hak' : a.1 ≠ k' := fun hc => h (hc ▸ hak)
      rw [List.filter_cons, hf]
      simp only [Bool.false_eq_true, if_false]
      rw [ih]
      simp [List.find?, hak']
    · have hf : (decide (a.1 ≠ k)) = true := by simp [hak]
      rw [List.filter_cons, hf]
      simp only [if_true]
      by_cases hak' : a.1 = k'
      · simp [List.find?, hak']
      · rw [show List.find? (fun p => decide (p.1 = k'))
              (a :: List.filter (fun p => decide (p.1 ≠ k)) t) =
            List.find? (fun p => decide (p.1 = k'))
              (List.filter (fun p => decide (p.1 ≠ k)) t) from by
          simp [List.find?, hak']]
        rw [ih]
        simp [List.find?, hak']

theorem Storage.get_set_ne (st : Storage) (k v k' : String) (h : k' ≠ k) :
    (st.set k v).get k' = st.get k' := by
  have hkk : ¬ (k = k') := fun hc => h hc.symm
  simp only [Storage.get, Storage.set]
  rw [show List.find? (fun p => decide (p.1 = k'))
        ((k, v) :: List.filter (fun p => decide (p.1 ≠ k)) st) =
      List.find? (fun p => decide (p.1 = k'))
        (List.filter (fun p => decide (p.1 ≠ k)) st) from by
    simp [List.find?, hkk]]
  rw [Storage.find_filter_out st k k' h]

theorem Storage.set_set (st : Storage) (k v : String) :
    (st.set k v).set k v = st.set k v := by
  simp [Storage.set, List.filter_filter]

/-! ## Concrete fixtures (from `src/__tests__/utils/api.test.js`) -/

/-- The test fixture `testUser = { _id: 'foo', username: 'bar', token: 'baz' }`. -/
def testUser : UserRecord := ⟨"foo", "bar", "baz"⟩

/-- Credentials value used to exercise the operations (the test posts
the fixture itself as the body). -/
def testCreds : Credentials := ⟨"bar", "baz"⟩

/-- An endpoint replying 200 with `testUser` to every request, like
`nock(host).post('/api/login').reply(200, testUser)`. -/
def okEndpoint : Endpoint := fun _ => .ok ⟨200, some testUser⟩

/-- An endpoint replying 400 with no body to every request, like
`nock(host).post('/api/login').reply(400)`. -/
def failEndpoint : Endpoint := fun _ => .ok ⟨400, none⟩

/-- An endpoint whose transport fails at every request. -/
def downEndpoint : Endpoint := fun _ => .error "ECONNREFUSED"

/-! ## Claims -/

/-- C1: for every credentials value, if the auth endpoint responds 200
to `POST /api/login` with a user record `U`, then `login(credentials)`
resolves to a value deep-equal to `U`, and afterwards the storage slot
`"user"` holds the serialized (JSON string) form of `U`. -/
theorem login_success_resolves_and_stores (creds : Credentials)
    (endpoint : Endpoint) (st : Storage) (U : UserRecord)
    (h : endpoint ⟨"POST", origin ++ "/api/login", creds⟩ =
      Except.ok ⟨200, some U⟩) :
    (login creds endpoint st).result = .ok U ∧
      (login creds endpoint st).storage.get "user" = some (serialize U) := by
  simp only [login, authRequest, h]
  norm_num [is2xx, Storage.get_set_self]

theorem login_success_resolves_and_stores_witness :
    (login testCreds okEndpoint Storage.empty).result = .ok testUser ∧
      (login testCreds okEndpoint Storage.empty).storage.get "user" =
        some (serialize testUser) :=
  login_success_resolves_and_stores testCreds okEndpoint Storage.empty
    testUser rfl

/-- C2: for every credentials value, if the auth endpoint responds to
`POST /api/login` with a non-2xx status, then `login(credentials)`
rejects with a defined error value and the storage is left unmodified;
in particular the slot `"user"`, if absent before, is absent after. -/
theorem login_failure_rejects_and_preserves (creds : Credentials)
    (endpoint : Endpoint) (st : Storage) (resp : Response)
    (h : endpoint ⟨"POST", origin ++ "/api/login", creds⟩ = Except.ok resp)
    (hs : is2xx resp.status = false) :
    (∃ e : ApiError, (login creds endpoint st).result = .error e) ∧
      (login creds endpoint st).storage = st ∧
      (st.get "user" = none →
        (login creds endpoint st).storage.get "user" = none) := by
  simp only [login, authRequest, h, hs]
  exact ⟨⟨.status resp.status, rfl⟩, rfl, fun hnone => hnone⟩

theorem login_failure_rejects_and_preserves_witness :
    (∃ e : ApiError,
        (login testCreds failEndpoint Storage.empty).result = .error e) ∧
      (login testCreds failEndpoint Storage.empty).storage = Storage.empty ∧
      (Storage.empty.get "user" = none →
        (login testCreds failEndpoint Storage.empty).storage.get "user" =
          none) :=
  login_failure_rejects_and_preserves testCreds failEndpoint Storage.empty
    ⟨400, none⟩ rfl (by decide)

/-- C3: `register` satisfies the same two properties against
`POST /api/register`: on a 200 response with user record `U` it
resolves to `U` and stores `serialize U` under `"user"`; on a non-2xx
response it rejects and leaves the storage unmodified. -/
theorem register_contract (creds : Credentials) (eOk eFail : Endpoint)
    (st : Storage) (U : UserRecord) (resp : Response)
    (hOk : eOk ⟨"POST", origin ++ "/api/register", creds⟩ =
      Except.ok ⟨200, some U⟩)
    (hFail : eFail ⟨"POST", origin ++ "/api/register", creds⟩ =
      Except.ok resp)
    (hs : is2xx resp.status = false) :
    (register creds eOk st).result = .ok U ∧
      (register creds eOk st).storage.get "user" = some (serialize U) ∧
      (register creds eFail st).result = .error (.status resp.status) ∧
      (register creds eFail st).storage = st := by
  refine ⟨?_, ?_, ?_, ?_⟩ <;>
    simp only [register, authRequest, hOk, hFail, hs] <;>
    norm_num [is2xx, Storage.get_set_self]

theorem register_contract_witness :
    (register testCreds okEndpoint Storage.empty).result = .ok testUser ∧
      (register testCreds okEndpoint Storage.empty).storage.get "user" =
        some (serialize testUser) ∧
      (register testCreds failEndpoint Storage.empty).result =
        .error (.status 400) ∧
      (register testCreds failEndpoint Storage.empty).storage =
        Storage.empty :=
  register_contract testCreds okEndpoint failEndpoint Storage.empty
    testUser ⟨400, none⟩ rfl rfl (by decide)

/-- C4: no failure is caught and suppressed inside `login` or
`register`: every transport failure and every non-2xx status reaches
the caller of either operation as a single rejected result. -/
theorem failures_propagate (creds : Credentials) (eT eS : Endpoint)
    (st : Storage) (msg : String) (resp : Response)
    (hT : ∀ req, eT req = Except.error msg)
    (hS : ∀ req, eS req = Except.ok resp)
    (hs : is2xx resp.status = false) :
    (login creds eT st).result = .error (.transport msg) ∧
      (register creds eT st).result = .error (.transport msg) ∧
      (login creds eS st).result = .error (.status resp.status) ∧
      (register creds eS st).result = .error (.status resp.status) := by
  refine ⟨?_, ?_, ?_, ?_⟩ <;>
    simp [login, register, authRequest, hT, hS, hs]

theorem failures_propagate_witness :
    (login testCreds downEndpoint Storage.empty).result =
        .error (.transport "ECONNREFUSED") ∧
      (register testCreds downEndpoint Storage.empty).result =
        .error (.transport "ECONNREFUSED") ∧
      (login testCreds failEndpoint Storage.empty).result =
        .error (.status 400) ∧
      (register testCreds failEndpoint Storage.empty).result =
        .error (.status 400) :=
  failures_propagate testCreds downEndpoint failEndpoint Storage.empty
    "ECONNREFUSED" ⟨400, none⟩ (fun _ => rfl) (fun _ => rfl) (by decide)

/-- Case analysis shared by the frame and invariant claims: an auth
call either leaves storage untouched and rejects, or resolves with
some `U` and its only effect is the single full set of `"user"`. -/
theorem authRequest_cases (path : String) (endpoint : Endpoint)
    (creds : Credentials) (st : Storage) :
    ((∃ e, (authRequest path endpoint creds st).result = .error e) ∧
        (authRequest path endpoint creds st).storage = st) ∨
      (∃ U, (authRequest path endpoint creds st).result = .ok U ∧
        (authRequest path endpoint creds st).storage =
          st.set "user" (serialize U)) := by
  simp only [authRequest]
  cases endpoint ⟨"POST", origin ++ path, creds⟩ with
  | error e => exact .inl ⟨⟨_, rfl⟩, rfl⟩
  | ok resp =>
    by_cases hs : is2xx resp.status = true
    · cases hb : resp.body with
      | some u =>
        right
        exact ⟨u, by simp [hs, hb], by simp [hs, hb]⟩
      | none =>
        left
        exact ⟨⟨.badBody, by simp [hs, hb]⟩, by simp [hs, hb]⟩
    · left
      exact ⟨⟨.status resp.status, by simp [hs]⟩, by simp [hs]⟩

/-- The requests issued by one auth call, on every path. -/
theorem authRequest_requests (path : String) (endpoint : Endpoint)
    (creds : Credentials) (st : Storage) :
    (authRequest path endpoint creds st).requests =
      [⟨"POST", origin ++ path, creds⟩] := by
  simp only [authRequest]
  cases endpoint ⟨"POST", origin ++ path, creds⟩ with
  | error e => rfl
  | ok resp =>
    by_cases hs : is2xx resp.status = true
    · cases hb : resp.body with
      | some u => simp [hs, hb]
      | none => simp [hs, hb]
    · simp [hs]

/-- C5: for every call to `login` or `register` the only observable
side effect is the write of the single slot `"user"`, and only on the
success path: other keys read the same afterwards, an error outcome
leaves the storage exactly as it was, and a success outcome makes the
storage exactly the single full set of `"user"`. -/
theorem only_user_slot_written (creds : Credentials) (endpoint : Endpoint)
    (st : Storage) :
    (∀ k, k ≠ "user" →
        (login creds endpoint st).storage.get k = st.get k) ∧
      (∀ e, (login creds endpoint st).result = .error e →
        (login creds endpoint st).storage = st) ∧
      (∀ U, (login creds endpoint st).result = .ok U →
        (login creds endpoint st).storage = st.set "user" (serialize U)) ∧
      (∀ k, k ≠ "user" →
        (register creds endpoint st).storage.get k = st.get k) ∧
      (∀ e, (register creds endpoint st).result = .error e →
        (register creds endpoint st).storage = st) ∧
      (∀ U, (register creds endpoint st).result = .ok U →
        (register creds endpoint st).storage =
          st.set "user" (serialize U)) := by
  have hl := authRequest_cases "/api/login" endpoint creds st
  have hr := authRequest_cases "/api/register" endpoint creds st
  refine ⟨?_, ?_, ?_, ?_, ?_, ?_⟩
  · intro k hk
    rcases hl with ⟨_, hst⟩ | ⟨U, _, hst⟩
    · rw [show login creds endpoint st = authRequest "/api/login" endpoint creds st from rfl, hst]
    · rw [show login creds endpoint st = authRequest "/api/login" endpoint creds st from rfl, hst,
        Storage.get_set_ne st "user" (serialize U) k hk]
  · intro e he
    rcases hl with ⟨_, hst⟩ | ⟨U, hres, _⟩
    · exact hst
    · rw [show login creds endpoint st = authRequest "/api/login" endpoint creds st from rfl] at he
      rw [hres] at he
      cases he
  · intro U hU
    rcases hl with ⟨⟨e, hres⟩, _⟩ | ⟨V, hres, hst⟩
    · rw [show login creds endpoint st = authRequest "/api/login" endpoint creds st from rfl] at hU
      rw [hres] at hU
      cases hU
    · rw [show login creds endpoint st = authRequest "/api/login" endpoint creds st from rfl] at hU ⊢
      rw [hres] at hU
      cases hU
      exact hst
  · intro k hk
    rcases hr with ⟨_, hst⟩ | ⟨U, _, hst⟩
    · rw [show register creds endpoint st = authRequest "/api/register" endpoint creds st from rfl, hst]
    · rw [show register creds endpoint st = authRequest "/api/register" endpoint creds st from rfl, hst,
        Storage.get_set_ne st "user" (serialize U) k hk]
  · intro e he
    rcases hr with ⟨_, hst⟩ | ⟨U, hres, _⟩
    · exact hst
    · rw [show register creds endpoint st = authRequest "/api/register" endpoint creds st from rfl] at he
      rw [hres] at he
      cases he
  · intro U hU
    rcases hr with ⟨⟨e, hres⟩, _⟩ | ⟨V, hres, hst⟩
    · rw [show register creds endpoint st = authRequest "/api/register" endpoint creds st from rfl] at hU
      rw [hres] at hU
      cases hU
    · rw [show register creds endpoint st = authRequest "/api/register" endpoint creds st from rfl] at hU ⊢
      rw [hres] at hU
      cases hU
      exact hst

theorem only_user_slot_written_witness :
    (login testCreds okEndpoint Storage.empty).storage.get "other" =
        Storage.empty.get "other" ∧
      (login testCreds failEndpoint Storage.empty).storage =
        Storage.empty ∧
      (login testCreds okEndpoint Storage.empty).storage =
        Storage.empty.set "user" (serialize testUser) :=
  ⟨(only_user_slot_written testCreds okEndpoint Storage.empty).1 "other"
      (by decide),
    (only_user_slot_written testCreds failEndpoint Storage.empty).2.1
      (.status 400) rfl,
    (only_user_slot_written testCreds okEndpoint Storage.empty).2.2.1
      testUser rfl⟩

/-- The storage invariant: the slot `"user"` holds exactly the
serialized record of the most recent successfully-authenticated user,
or is absent when there is none. -/
def userSlotInv (st : Storage) (lastAuth : Option UserRecord) : Prop :=
  st.get "user" = lastAuth.map serialize

/-- The most recent successfully-authenticated user after an api call:
updated on a resolved call, unchanged on a rejected one. -/
def lastAuthAfter (o : ApiOutcome) (lastAuth : Option UserRecord) :
    Option UserRecord :=
  match o.result with
  | .ok u => some u
  | .error _ => lastAuth

/-- C6: both operations preserve the invariant that the slot `"user"`
holds the serialized record of the most recent successfully
authenticated user or is absent, and every write of it is a single
full set of that one key on the success path only (never partial). -/
theorem user_slot_invariant_preserved (creds : Credentials)
    (endpoint : Endpoint) (st : Storage) (lastAuth : Option UserRecord)
    (hinv : userSlotInv st lastAuth) :
    userSlotInv (login creds endpoint st).storage
        (lastAuthAfter (login creds endpoint st) lastAuth) ∧
      userSlotInv (register creds endpoint st).storage
        (lastAuthAfter (register creds endpoint st) lastAuth) ∧
      ((login creds endpoint st).storage = st ∨
        ∃ U, (login creds endpoint st).result = .ok U ∧
          (login creds endpoint st).storage =
            st.set "user" (serialize U)) ∧
      ((register creds endpoint st).storage = st ∨
        ∃ U, (register creds endpoint st).result = .ok U ∧
          (register creds endpoint st).storage =
            st.set "user" (serialize U)) := by
  have hl := authRequest_cases "/api/login" endpoint creds st
  have hr := authRequest_cases "/api/register" endpoint creds st
  refine ⟨?_, ?_, ?_, ?_⟩
  · rcases hl with ⟨⟨e, hres⟩, hst⟩ | ⟨U, hres, hst⟩
    · show userSlotInv (authRequest "/api/login" endpoint creds st).storage _
      rw [hst]
      unfold lastAuthAfter
      rw [show (login creds endpoint st).result =
        (authRequest "/api/login" endpoint creds st).result from rfl, hres]
      exact hinv
    · show userSlotInv (authRequest "/api/login" endpoint creds st).storage _
      rw [hst]
      unfold lastAuthAfter
      rw [show (login creds endpoint st).result =
        (authRequest "/api/login" endpoint creds st).result from rfl, hres]
      exact Storage.get_set_self st "user" (serialize U)
  · rcases hr with ⟨⟨e, hres⟩, hst⟩ | ⟨U, hres, hst⟩
    · show userSlotInv (authRequest "/api/register" endpoint creds st).storage _
      rw [hst]
      unfold lastAuthAfter
      rw [show (register creds endpoint st).result =
        (authRequest "/api/register" endpoint creds st).result from rfl, hres]
      exact hinv
    · show userSlotInv (authRequest "/api/register" endpoint creds st).storage _
      rw [hst]
      unfold lastAuthAfter
      rw [show (register creds endpoint st).result =
        (authRequest "/api/register" endpoint creds st).result from rfl, hres]
      exact Storage.get_set_self st "user" (serialize U)
  · rcases hl with ⟨_, hst⟩ | ⟨U, hres, hst⟩
    · exact .inl hst
    · exact .inr ⟨U, hres, hst⟩
  · rcases hr with ⟨_, hst⟩ | ⟨U, hres, hst⟩
    · exact .inl hst
    · exact .inr ⟨U, hres, hst⟩

theorem user_slot_invariant_preserved_witness :
    userSlotInv (login testCreds okEndpoint Storage.empty).storage
        (lastAuthAfter (login testCreds okEndpoint Storage.empty) none) ∧
      userSlotInv (register testCreds okEndpoint Storage.empty).storage
        (lastAuthAfter (register testCreds okEndpoint Storage.empty)
          none) ∧
      ((login testCreds okEndpoint Storage.empty).storage =
          Storage.empty ∨
        ∃ U, (login testCreds okEndpoint Storage.empty).result = .ok U ∧
          (login testCreds okEndpoint Storage.empty).storage =
            Storage.empty.set "user" (serialize U)) ∧
      ((register testCreds okEndpoint Storage.empty).storage =
          Storage.empty ∨
        ∃ U, (register testCreds okEndpoint Storage.empty).result =
            .ok U ∧
          (register testCreds okEndpoint Storage.empty).storage =
            Storage.empty.set "user" (serialize U)) :=
  user_slot_invariant_preserved testCreds okEndpoint Storage.empty none rfl

/-- C7: storage idempotence — two successive successful logins with the
endpoint returning the same `U` leave exactly the storage of one, and
the slot `"user"` holds serialized `U` with no accumulation. -/
theorem login_storage_idempotent (creds : Credentials)
    (endpoint : Endpoint) (st : Storage) (U : UserRecord)
    (h : endpoint ⟨"POST", origin ++ "/api/login", creds⟩ =
      Except.ok ⟨200, some U⟩) :
    (login creds endpoint (login creds endpoint st).storage).storage =
        (login creds endpoint st).storage ∧
      (login creds endpoint
          (login creds endpoint st).storage).storage.get "user" =
        some (serialize U) := by
  have h1 : ∀ s : Storage, (login creds endpoint s).storage =
      s.set "user" (serialize U) := by
    intro s
    simp only [login, authRequest, h]
    norm_num [is2xx]
  rw [h1, h1, Storage.set_set]
  exact ⟨rfl, Storage.get_set_self _ _ _⟩

theorem login_storage_idempotent_witness :
    (login testCreds okEndpoint
        (login testCreds okEndpoint Storage.empty).storage).storage =
        (login testCreds okEndpoint Storage.empty).storage ∧
      (login testCreds okEndpoint
          (login testCreds okEndpoint
            Storage.empty).storage).storage.get "user" =
        some (serialize testUser) :=
  login_storage_idempotent testCreds okEndpoint Storage.empty testUser rfl

/-- C8: each call to `login` or `register` issues exactly one POST of
the credentials to the fixed path at the fixed origin — no retry — and
produces exactly one completion, a success or a failure. -/
theorem single_request_single_completion (creds : Credentials)
    (endpoint : Endpoint) (st : Storage) :
    (login creds endpoint st).requests =
        [⟨"POST", origin ++ "/api/login", creds⟩] ∧
      (register creds endpoint st).requests =
        [⟨"POST", origin ++ "/api/register", creds⟩] ∧
      ((∃ U, (login creds endpoint st).result = .ok U) ∨
        (∃ e, (login creds endpoint st).result = .error e)) ∧
      ((∃ U, (register creds endpoint st).result = .ok U) ∨
        (∃ e, (register creds endpoint st).result = .error e)) := by
  refine ⟨authRequest_requests "/api/login" endpoint creds st,
    authRequest_requests "/api/register" endpoint creds st, ?_, ?_⟩
  · rcases authRequest_cases "/api/login" endpoint creds st with
      ⟨⟨e, hres⟩, _⟩ | ⟨U, hres, _⟩
    · exact .inr ⟨e, hres⟩
    · exact .inl ⟨U, hres⟩
  · rcases authRequest_cases "/api/register" endpoint creds st with
      ⟨⟨e, hres⟩, _⟩ | ⟨U, hres, _⟩
    · exact .inr ⟨e, hres⟩
    · exact .inl ⟨U, hres⟩

/-- C9: the server wires the collaborator interfaces: request bodies
are parsed as JSON before the mounted routes see them; requests under
`/api` are routed to the user routes and then the video routes; any
other GET request (not health, not served statically) receives the
rendered HTML shell. -/
theorem server_wiring (jsonParse : String → Option String)
    (staticH userRoutes videoRoutes : Server.SReq → Option Server.SResp)
    (renderApp : Unit → String) (r : Server.SReq) (resp : Server.SResp)
    (hnh : ¬ (r.method = "GET" ∧ r.path = "/health"))
    (hstatic : staticH (Server.withParsed jsonParse r) = none) :
    (Server.withParsed jsonParse r).parsedBody = jsonParse r.rawBody ∧
      (Server.underApi r.path = true →
        userRoutes (Server.withParsed jsonParse r) = some resp →
        Server.dispatch jsonParse staticH userRoutes videoRoutes
          renderApp r = some resp) ∧
      (Server.underApi r.path = true →
        userRoutes (Server.withParsed jsonParse r) = none →
        videoRoutes (Server.withParsed jsonParse r) = some resp →
        Server.dispatch jsonParse staticH userRoutes videoRoutes
          renderApp r = some resp) ∧
      (Server.underApi r.path = false → r.method = "GET" →
        Server.dispatch jsonParse staticH userRoutes videoRoutes
          renderApp r = some (.html (renderApp ()))) := by
  refine ⟨rfl, ?_, ?_, ?_⟩
  · intro hp hu
    simp [Server.dispatch, Server.withParsed, hnh, hstatic, hp, hu] at *
  · intro hp hu hv
    simp [Server.dispatch, Server.withParsed, hnh, hstatic, hp] at *
    simp [hu, hv]
  · intro hp hm
    simp [Server.dispatch, Server.withParsed, hnh, hstatic, hp, hm] at *
    simp [hnh, hstatic]

theorem server_wiring_witness :
    Server.dispatch (fun s => some s) (fun _ => none)
        (fun _ => some (.routed "user-route")) (fun _ => none)
        (fun _ => "shell") ⟨"POST", "/api/login", "creds", none⟩ =
      some (.routed "user-route") :=
  (server_wiring (fun s => some s) (fun _ => none)
      (fun _ => some (.routed "user-route")) (fun _ => none)
      (fun _ => "shell") ⟨"POST", "/api/login", "creds", none⟩
      (.routed "user-route") (by simp) rfl).2.1 (by decide) rfl

/-- C10: what the server module exports depends on `isTesting`: when
true it exports the express app itself without binding a network port;
when false it calls `listen(PORT)` and exports the listener. -/
theorem module_exports_depend_on_isTesting (PORT : Nat) :
    Server.moduleExports true PORT = .app ∧
      Server.moduleExports false PORT = .listener PORT ∧
      (Server.moduleExports true PORT).portsBound = [] ∧
      (Server.moduleExports false PORT).portsBound = [PORT] :=
  ⟨rfl, rfl, rfl, rfl⟩

end Youtoob
